import Mathlib

/-!
Verification of the MathTuro learning-management client.

Shallow embedding of the client-side data-access helpers:
  - `student.js` (submitQuizScore, getStudentProgressByModule, getQuizSubmissions,
    requestQuizResubmission, updateQuizSubmission, saveStudentNote)
  - `teacher.js` (approveQuizSubmission, rejectQuizSubmission,
    getPendingQuizSubmissions, getStudentProgress, getStudentsByModule)
  - `admin.js` (getUsers, deleteUser)
  - `uploads.js` (uploadQuizScreenshot)
  - `utils.js` (getCached, setCache, startSessionMonitor, stopSessionMonitor)

Remote calls (Supabase table reads/writes, storage uploads, auth) are modelled by
passing the fetched rows / remote outcomes as explicit parameters, and every write
an operation issues is returned as an explicit payload or effect value, so that
"the operation performed no write" is the statement "the payload is `none`" /
"the effect list is empty".  JavaScript numbers are IEEE-754 doubles: integer
counts, sizes and timestamps stay exact (below 2^53) and are modelled as
`Nat`/`Int`, while the percentage arithmetic
`Math.round((completed / total) * 100)` involves an inexact division and is
modelled exactly by `jsPct`, which reproduces the two correctly rounded
binary64 operations and `Math.round` with integer arithmetic.
-/

namespace MathTuro

/-- A row of the `users` table / the `user` object kept in localStorage. -/
structure User where
  id : ℕ
  role : String
  deriving DecidableEq, Repr

/-- A row of the `lessons` table (fields the aggregation reads). -/
structure Lesson where
  id : ℕ
  title : String
  deriving DecidableEq, Repr

/-- A row of the `modules` table together with its joined `lessons(*)`. -/
structure Module where
  id : ℕ
  title : String
  lessons : List Lesson
  deriving DecidableEq, Repr

/-- A row of the `lesson_progress` table (fields the aggregation reads). -/
structure ProgressRow where
  student_id : ℕ
  lesson_id : ℕ
  completed : Bool
  deriving DecidableEq, Repr

/-- A row of the `quiz_submissions` table (fields the client reads). -/
structure SubmissionRow where
  student_id : ℕ
  lesson_id : ℕ
  score : ℤ
  total_items : ℤ
  status : String
  deriving DecidableEq, Repr

/-- Outcome of a remote read: either an error object or the fetched rows,
matching the `{ data, error }` shape of the Supabase client. -/
abbrev DbRead (α : Type) := Except String (List α)

-- ============================================
-- utils.js : CACHING SYSTEM (part_001 lines 429-476)
-- ============================================

/-- The fields of the global `CONFIG` object used by the cache and the
session monitor (`config.js`). -/
structure Config where
  CACHE_ENABLED : Bool
  deriving DecidableEq, Repr

/-- An entry of the `cache` Map: `{ data, expiry }` (part_001 lines 460-463). -/
structure CacheEntry (α : Type) where
  data : α
  expiry : ℕ
  deriving DecidableEq, Repr

/-- The `cache` Map, as an association list looked up front-to-back. -/
abbrev CacheMap (α : Type) := List (String × CacheEntry α)

/-- Source `cache.set(key, e)` : replace any entry for `key` and add the new one. -/
def cacheMapSet (c : CacheMap α) (key : String) (e : CacheEntry α) : CacheMap α :=
  (key, e) :: c.filter (fun p => p.1 != key)

/-- Source `cache.get(key)` : first entry stored for `key`, if any. -/
def cacheMapGet (c : CacheMap α) (key : String) : Option (CacheEntry α) :=
  (c.find? (fun p => p.1 == key)).map (·.2)

/-- Source `cache.delete(key)`. -/
def cacheMapDelete (c : CacheMap α) (key : String) : CacheMap α :=
  c.filter (fun p => p.1 != key)

/-- Source `setCache(key, data, ttl)` (part_001 lines 457-464): no-op when caching is
disabled, otherwise stores `{ data, expiry: Date.now() + ttl }`. `now` is the
value of `Date.now()` at call time. -/
def setCache (cfg : Config) (now : ℕ) (c : CacheMap α) (key : String) (data : α)
    (ttl : ℕ) : CacheMap α :=
  if cfg.CACHE_ENABLED = false then c
  else cacheMapSet c key ⟨data, now + ttl⟩

/-- Source `getCached(key)` (part_001 lines 439-451): returns the cached data and the
cache state after the call (the entry is deleted when expired). -/
def getCached (cfg : Config) (now : ℕ) (c : CacheMap α) (key : String) :
    Option α × CacheMap α :=
  if cfg.CACHE_ENABLED = false then (none, c)
  else
    match cacheMapGet c key with
    | none => (none, c)
    | some e => if now > e.expiry then (none, cacheMapDelete c key) else (some e.data, c)

-- ============================================
-- utils.js : SESSION MONITOR (part_001 lines 482-530)
-- ============================================

/-- The timer state: the module-level `sessionCheckInterval` handle together
with the set of interval timers currently active in the browser. -/
structure TimerState where
  handle : Option ℕ
  active : List ℕ
  deriving DecidableEq, Repr

/-- State at page load: `sessionCheckInterval = null`, no interval running. -/
def initialTimerState : TimerState := ⟨none, []⟩

/-- Source `startSessionMonitor()` (part_001 lines 488-519): returns immediately when a
monitor is already running, otherwise `setInterval` hands back a fresh id which
is stored in `sessionCheckInterval`. -/
def startSessionMonitor (s : TimerState) (freshId : ℕ) : TimerState :=
  match s.handle with
  | some _ => s
  | none => ⟨some freshId, freshId :: s.active⟩

/-- Source `stopSessionMonitor()` (part_001 lines 525-530): `clearInterval` the stored
handle and reset it to `null`; no-op when no monitor is running. -/
def stopSessionMonitor (s : TimerState) : TimerState :=
  match s.handle with
  | some id => ⟨none, s.active.filter (fun i => i != id)⟩
  | none => s

/-- Timer states reachable from page load by any sequence of
`startSessionMonitor` / `stopSessionMonitor` calls. -/
inductive TimerReachable : TimerState → Prop where
  | init : TimerReachable initialTimerState
  | start (s : TimerState) (freshId : ℕ) :
      TimerReachable s → TimerReachable (startSessionMonitor s freshId)
  | stop (s : TimerState) :
      TimerReachable s → TimerReachable (stopSessionMonitor s)

-- ============================================
-- uploads.js : uploadQuizScreenshot (part_000 lines 618-677)
-- ============================================

/-- A browser `File` object (fields the upload validation reads). -/
structure JsFile where
  type : String
  size : ℕ
  deriving DecidableEq, Repr

/-- Source `allowedTypes` (part_000 line 626). -/
def allowedImageTypes : List String :=
  ["image/jpeg", "image/png", "image/webp", "image/gif"]

/-- Source `maxSize` for quiz screenshots (part_000 line 632). -/
def maxScreenshotSize : ℕ := 5 * 1024 * 1024

/-- Outcome of the storage interaction, as the client observes it:
`uploadError` is the `{ error }` of `.upload(...)`, `publicUrlData` the
`{ data }` of `.getPublicUrl(...)` (`none` models a falsy `publicUrlData`). -/
structure StorageOutcome where
  uploadError : Option String
  publicUrlData : Option String
  deriving DecidableEq, Repr

/-- The object `uploadQuizScreenshot` returns. -/
structure UploadResult where
  success : Bool
  url : Option String
  error : Option String
  filename : Option String
  deriving DecidableEq, Repr

/-- Result of a call to `uploadQuizScreenshot`, together with whether the
storage `.upload(...)` call was reached. -/
structure UploadCall where
  result : UploadResult
  uploadAttempted : Bool
  deriving DecidableEq, Repr

/-- The generated storage filename `{studentId}_lesson{lessonId}_{timestamp}.{ext}`
(part_000 lines 638-640); `ext` is `file.type.split('/')[1]`. -/
def screenshotFilename (lessonId studentId timestamp : ℕ) (fileType : String) : String :=
  toString studentId ++ "_lesson" ++ toString lessonId ++ "_" ++ toString timestamp
    ++ "." ++ ((fileType.splitOn "/").drop 1).headD ""

/-- Source `uploadQuizScreenshot(lessonId, studentId, file)` (part_000 lines 618-677).
`timestamp` is the `Date.now()` value used in the filename. -/
def uploadQuizScreenshot (lessonId studentId timestamp : ℕ) (file : Option JsFile)
    (storage : StorageOutcome) : UploadCall :=
  match file with
  | none => ⟨⟨false, none, some "No file selected", none⟩, false⟩
  | some f =>
    if f.type ∉ allowedImageTypes then
      ⟨⟨false, none, some "Only image files (JPEG, PNG, WebP, GIF) are allowed", none⟩, false⟩
    else if f.size > maxScreenshotSize then
      ⟨⟨false, none, some "File size must be less than 5MB", none⟩, false⟩
    else
      match storage.uploadError with
      | some msg => ⟨⟨false, none, some msg, none⟩, true⟩
      | none =>
        match storage.publicUrlData with
        | none => ⟨⟨false, none, some "Failed to get public URL", none⟩, true⟩
        | some url =>
          ⟨⟨true, some url, none,
            some (screenshotFilename lessonId studentId timestamp f.type)⟩, true⟩

-- ============================================
-- student.js : submitQuizScore (lines 125-196), updateQuizSubmission (442-520),
--              requestQuizResubmission (383-415)
-- ============================================

/-- The row `submitQuizScore` inserts into `quiz_submissions` (student.js
lines 169-183). -/
structure QuizInsertPayload where
  student_id : ℕ
  lesson_id : ℕ
  score : ℤ
  total_items : ℤ
  screenshot_url : Option String
  status : String
  deriving DecidableEq, Repr

/-- Source `submitQuizScore(lessonId, score, totalItems, screenshotFile)` (student.js
lines 125-196) for inputs whose `parseInt` results are integers (the `isNaN`
branch rejects non-numeric input before any of the modelled checks).  Returns
the boolean result and the insert payload issued to `quiz_submissions`
(`none` when the function returns before reaching the insert).
`insertError` is the `{ error }` of the insert. -/
def submitQuizScore (user : Option User) (lessonId timestamp : ℕ)
    (score totalItems : ℤ) (screenshotFile : Option JsFile)
    (storage : StorageOutcome) (insertError : Option String) :
    Bool × Option QuizInsertPayload :=
  match user with
  | none => (false, none)
  | some u =>
    if u.role ≠ "student" then (false, none)
    else if score < 0 ∨ totalItems ≤ 0 then (false, none)
    else if score > totalItems then (false, none)
    else
      let doInsert : Option String → Bool × Option QuizInsertPayload := fun url =>
        let payload : QuizInsertPayload :=
          ⟨u.id, lessonId, score, totalItems, url, "pending"⟩
        match insertError with
        | some _ => (false, some payload)
        | none => (true, some payload)
      match screenshotFile with
      | none => doInsert none
      | some f =>
        let up := uploadQuizScreenshot lessonId u.id timestamp (some f) storage
        if up.result.success then doInsert up.result.url else (false, none)

/-- The `updateData` object `updateQuizSubmission` sends to `quiz_submissions`
(student.js lines 471-477, 499). -/
structure QuizUpdatePayload where
  score : ℤ
  total_items : ℤ
  status : String
  teacher_comment : Option String
  screenshot_url : Option (Option String)
  deriving DecidableEq, Repr

/-- Source `updateQuizSubmission(submissionId, score, totalItems, screenshotFile)`
(student.js lines 442-520), same input convention as `submitQuizScore`.
`fetchError` is the `{ error }` of the `lesson_id` lookup performed when a new
screenshot is supplied, `fetchedLessonId` the fetched `submission.lesson_id`. -/
def updateQuizSubmission (user : Option User) (score totalItems : ℤ)
    (screenshotFile : Option JsFile) (fetchError : Option String)
    (fetchedLessonId timestamp : ℕ) (storage : StorageOutcome)
    (updateError : Option String) : Bool × Option QuizUpdatePayload :=
  match user with
  | none => (false, none)
  | some u =>
    if u.role ≠ "student" then (false, none)
    else if score < 0 ∨ totalItems ≤ 0 then (false, none)
    else if score > totalItems then (false, none)
    else
      let base : QuizUpdatePayload := ⟨score, totalItems, "pending", none, none⟩
      let doUpdate : QuizUpdatePayload → Bool × Option QuizUpdatePayload := fun payload =>
        match updateError with
        | some _ => (false, some payload)
        | none => (true, some payload)
      match screenshotFile with
      | none => doUpdate base
      | some f =>
        match fetchError with
        | some _ => (false, none)
        | none =>
          let up := uploadQuizScreenshot fetchedLessonId u.id timestamp (some f) storage
          if up.result.success then
            doUpdate { base with screenshot_url := some up.result.url }
          else (false, none)

/-- The update `requestQuizResubmission` sends (student.js lines 394-402). -/
structure ResubmitPayload where
  status : String
  teacher_comment : Option String
  deriving DecidableEq, Repr

/-- Source `requestQuizResubmission(submissionId)` (student.js lines 383-415). -/
def requestQuizResubmission (user : Option User) (updateError : Option String) :
    Bool × Option ResubmitPayload :=
  match user with
  | none => (false, none)
  | some u =>
    if u.role ≠ "student" then (false, none)
    else
      let payload : ResubmitPayload := ⟨"pending", none⟩
      match updateError with
      | some _ => (false, some payload)
      | none => (true, some payload)

-- ============================================
-- teacher.js : approveQuizSubmission (part_000 lines 41-76),
--              rejectQuizSubmission (part_000 lines 104-145)
-- ============================================

/-- The update a review operation sends to `quiz_submissions` (part_000
lines 54-59 and 123-128).  `reviewed_at` carries the `Date.now()` value. -/
structure ReviewPayload where
  status : String
  teacher_comment : Option String
  reviewed_at : ℕ
  reviewed_by : ℕ
  deriving DecidableEq, Repr

/-- Source `approveQuizSubmission(submissionId, comment = null)` (part_000
lines 41-76). -/
def approveQuizSubmission (user : Option User) (comment : Option String)
    (now : ℕ) (updateError : Option String) : Bool × Option ReviewPayload :=
  match user with
  | none => (false, none)
  | some u =>
    if u.role ≠ "teacher" ∧ u.role ≠ "admin" then (false, none)
    else
      let payload : ReviewPayload := ⟨"approved", comment, now, u.id⟩
      match updateError with
      | some _ => (false, some payload)
      | none => (true, some payload)

/-- JavaScript `String.prototype.trim`: strip leading and trailing whitespace.
(Structural implementation, since `String.trim` is compiled by well-founded
recursion and does not evaluate inside the kernel.) -/
def jsTrim (s : String) : String :=
  ⟨((s.data.dropWhile Char.isWhitespace).reverse.dropWhile
      Char.isWhitespace).reverse⟩

/-- Source `rejectQuizSubmission(submissionId, comment)` (part_000 lines 104-145).
`comment = none` models the JavaScript `null`/`undefined` arguments (falsy). -/
def rejectQuizSubmission (user : Option User) (comment : Option String)
    (now : ℕ) (updateError : Option String) : Bool × Option ReviewPayload :=
  match user with
  | none => (false, none)
  | some u =>
    if u.role ≠ "teacher" ∧ u.role ≠ "admin" then (false, none)
    else
      match comment with
      | none => (false, none)
      | some c =>
        if jsTrim c = "" then (false, none)
        else
          let payload : ReviewPayload := ⟨"rejected", some (jsTrim c), now, u.id⟩
          match updateError with
          | some _ => (false, some payload)
          | none => (true, some payload)

-- ============================================
-- list-returning reads: getQuizSubmissions (student.js lines 324-358),
-- getPendingQuizSubmissions (part_000 lines 169-195), getUsers (part_003
-- lines 546-578)
-- ============================================

/-- Source `getQuizSubmissions(status = null)` (student.js lines 324-358).  The status
filter is applied inside the remote query; `db` is the `{ data, error }` the
query resolves to.  Every failure path returns `[]`; the function is total, so
no exception reaches the caller. -/
def getQuizSubmissions (user : Option User) (statusFilter : Option String)
    (db : DbRead SubmissionRow) : List SubmissionRow :=
  match user, statusFilter with
  | none, _ => []
  | some u, _ =>
    if u.role ≠ "student" then []
    else match db with
    | .error _ => []
    | .ok rows => rows

/-- Source `getPendingQuizSubmissions()` (part_000 lines 169-195). -/
def getPendingQuizSubmissions (user : Option User) (db : DbRead SubmissionRow) :
    List SubmissionRow :=
  match user with
  | none => []
  | some u =>
    if u.role ≠ "teacher" ∧ u.role ≠ "admin" then []
    else match db with
    | .error _ => []
    | .ok rows => rows

/-- Source `getUsers(role = null)` (part_003 lines 546-578). -/
def getUsers (user : Option User) (roleFilter : Option String)
    (db : DbRead User) : List User :=
  match user, roleFilter with
  | none, _ => []
  | some u, _ =>
    if u.role ≠ "admin" then []
    else match db with
    | .error _ => []
    | .ok rows => rows

-- ============================================
-- student.js : saveStudentNote (lines 994-1020)
-- ============================================

/-- A storage action performed by `saveStudentNote`: the upsert sent to the
`student_notes` table, or a `localStorage.setItem` write. -/
inductive NoteEffect where
  | dbUpsert (student_id : ℕ) (lesson_id : Option ℕ) (content : String)
  | localStore (key : String) (content : String)
  deriving DecidableEq, Repr

/-- The localStorage key ``note_${user.id}_${lessonId}`` /
``note_${user.id}_general`` (student.js line 1011). -/
def noteLocalKey (uid : ℕ) (lessonId : Option ℕ) : String :=
  match lessonId with
  | some lid => "note_" ++ toString uid ++ "_" ++ toString lid
  | none => "note_" ++ toString uid ++ "_general"

/-- Source `saveStudentNote(noteContent, lessonId = null)` (student.js lines 994-1020).
`dbThrows` is whether the database upsert throws; the returned list is the
sequence of storage actions the call performs. -/
def saveStudentNote (user : Option User) (noteContent : String)
    (lessonId : Option ℕ) (dbThrows : Bool) : Bool × List NoteEffect :=
  match user with
  | none => (false, [])
  | some u =>
    if u.role ≠ "student" then (false, [])
    else if dbThrows then
      (true, [NoteEffect.dbUpsert u.id lessonId noteContent,
              NoteEffect.localStore (noteLocalKey u.id lessonId) noteContent])
    else
      (true, [NoteEffect.dbUpsert u.id lessonId noteContent])

-- ============================================
-- admin.js : deleteUser (part_003 lines 779-823)
-- ============================================

/-- A remote delete issued by `deleteUser`: against the `users` table or
against the Supabase Auth admin API. -/
inductive AdminDeleteEffect where
  | dbDelete (userId : ℕ)
  | authDelete (userId : ℕ)
  deriving DecidableEq, Repr

/-- Source `deleteUser(userId)` (part_003 lines 779-823).  Returns the boolean result
and the sequence of remote deletes issued. -/
def deleteUser (user : Option User) (userId : ℕ)
    (dbError authError : Option String) : Bool × List AdminDeleteEffect :=
  match user with
  | none => (false, [])
  | some u =>
    if u.role ≠ "admin" then (false, [])
    else if u.id = userId then (false, [])
    else
      match dbError with
      | some _ => (false, [AdminDeleteEffect.dbDelete userId])
      | none =>
        match authError with
        | some _ => (false, [AdminDeleteEffect.dbDelete userId,
                             AdminDeleteEffect.authDelete userId])
        | none => (true, [AdminDeleteEffect.dbDelete userId,
                          AdminDeleteEffect.authDelete userId])

-- ============================================
-- IEEE-754 binary64 model of the percentage arithmetic
--
-- The aggregations compute `Math.round((completed / total) * 100)` on
-- JavaScript numbers, i.e. IEEE-754 doubles: the division and the
-- multiplication are each correctly rounded to binary64 (round to nearest,
-- ties to even) and `Math.round` then rounds the resulting double's exact
-- value to an integer, ties toward +∞.  This differs from exact rational
-- rounding: (23/40)*100 evaluates to the double 57.49999999999999, so the
-- program returns 57 where round(57.5) = 58.  The model below computes the
-- double results exactly with integer arithmetic, representing a double as a
-- dyadic value m * 2^qe; it covers nonnegative finite values (counts of at
-- most 1200 bits, far above any array length), including the subnormal range.
-- ============================================

/-- Round-to-nearest-even of the quotient `N / D` (`D > 0`): the integer
rounding used by binary64 arithmetic. -/
def rne (N D : ℕ) : ℕ :=
  let q := N / D
  let r := N % D
  if 2 * r < D then q
  else if D < 2 * r then q + 1
  else if q % 2 = 0 then q else q + 1

/-- Fuel-bounded binary length so the kernel can evaluate it (plain
`Nat.log2` is compiled by well-founded recursion and does not reduce). -/
def bitsFuel : ℕ → ℕ → ℕ
  | 0, _ => 0
  | fuel + 1, n => if n = 0 then 0 else bitsFuel fuel (n / 2) + 1

/-- Binary length of `n` (`0` for `0`, `⌊log2 n⌋ + 1` otherwise), exact for
`n < 2 ^ 1200`. -/
def bitLen (n : ℕ) : ℕ := bitsFuel 1200 n

/-- Decides `2 ^ b ≤ c / t` for `b : ℤ`, by clearing denominators. -/
def pow2LeRatio (b : ℤ) (c t : ℕ) : Bool :=
  if 0 ≤ b then t * 2 ^ b.toNat ≤ c else t ≤ c * 2 ^ (-b).toNat

/-- Correctly rounded binary64 division `c / t` (`c, t ≥ 1`) as a dyadic pair
`(m, qe)` of value `m * 2^qe`: the quotient is rounded to the quantum
`2^(max(⌊log2 (c/t)⌋, -1022) - 52)` with ties to even. -/
def flDiv (c t : ℕ) : ℕ × ℤ :=
  let b : ℤ := (bitLen c : ℤ) - (bitLen t : ℤ)
  let e : ℤ := if pow2LeRatio b c t then b else b - 1
  let qe : ℤ := max e (-1022) - 52
  let m : ℕ :=
    if 0 ≤ qe then rne c (t * 2 ^ qe.toNat)
    else rne (c * 2 ^ (-qe).toNat) t
  (m, qe)

/-- Correctly rounded binary64 multiplication of the double `m * 2^qe` by the
exact constant 100: the product is re-rounded to 53 significant bits with
ties to even when it no longer fits. -/
def flMul100 (m : ℕ) (qe : ℤ) : ℕ × ℤ :=
  let p := m * 100
  if p ≤ 2 ^ 53 then (p, qe)
  else
    let s := bitLen p - 53
    (rne p (2 ^ s), qe + (s : ℤ))

/-- JavaScript `Math.round` on the nonnegative double `m * 2^qe`: the integer
closest to the double's exact value, ties toward +∞. -/
def mathRound (m : ℕ) (qe : ℤ) : ℤ :=
  if 0 ≤ qe then ((m * 2 ^ qe.toNat : ℕ) : ℤ)
  else
    let D := 2 ^ (-qe).toNat
    (((2 * m + D) / (2 * D) : ℕ) : ℤ)

/-- The percentage expression
`Math.round((completed / total) * 100)` of the three aggregations, evaluated
in IEEE-754 binary64 arithmetic (`total > 0`; a zero numerator divides to the
exact double `0`). -/
def jsPct (completed total : ℕ) : ℤ :=
  if completed = 0 then 0
  else
    let d := flDiv completed total
    let p := flMul100 d.1 d.2
    mathRound p.1 p.2

-- ============================================
-- Progress aggregation: getStudentProgressByModule (student.js lines 221-299),
-- getStudentProgress (part_000 lines 219-341),
-- getStudentsByModule (part_000 lines 365-459)
-- ============================================

/-- Source `progress.find(p => p.lesson_id === lesson.id)`. -/
def findProgressRow (progress : List ProgressRow) (lessonId : ℕ) :
    Option ProgressRow :=
  progress.find? (fun p => p.lesson_id == lessonId)

/-- The per-lesson entry `getStudentProgressByModule` builds (student.js
lines 269-279); the quiz display fields the aggregation never reads are
omitted. -/
structure LessonProgressEntry where
  lesson_id : ℕ
  completed : Bool
  deriving DecidableEq, Repr

/-- The object `getStudentProgressByModule` returns (student.js
lines 287-293). -/
structure ModuleProgressSummary where
  module_id : ℕ
  total_lessons : ℕ
  completed_lessons : ℕ
  completion_percentage : ℤ
  deriving DecidableEq, Repr

/-- Source `getStudentProgressByModule(moduleId)` (student.js lines 221-299) given the
fetched module lessons and the student's progress rows for those lessons;
`completed` per lesson is the JavaScript truthiness of
`lessonProgress && lessonProgress.completed` over the `find` result. -/
def getStudentProgressByModule (moduleId : ℕ) (lessons : List Lesson)
    (progress : List ProgressRow) : ModuleProgressSummary :=
  let lessonProgress := lessons.map (fun l =>
    ({ lesson_id := l.id,
       completed := (findProgressRow progress l.id).elim false
         ProgressRow.completed } : LessonProgressEntry))
  let completedLessons := (lessonProgress.filter (fun e => e.completed)).length
  let totalLessons := lessonProgress.length
  let completionPercentage : ℤ :=
    if 0 < totalLessons then jsPct completedLessons totalLessons else 0
  { module_id := moduleId, total_lessons := totalLessons,
    completed_lessons := completedLessons,
    completion_percentage := completionPercentage }

/-- One element of the `moduleProgress` array `getStudentProgress` builds
(part_000 lines 273-317); the per-lesson display list is omitted. -/
structure TeacherModuleProgress where
  module_id : ℕ
  module_title : String
  total_lessons : ℕ
  completed_lessons : ℕ
  completion_percentage : ℤ
  quiz_submissions : ℕ
  approved_quizzes : ℕ
  deriving DecidableEq, Repr

/-- The body of the `modules.map` of `getStudentProgress` (part_000
lines 273-317). -/
def getStudentProgress_module (m : Module) (progress : List ProgressRow)
    (submissions : List SubmissionRow) : TeacherModuleProgress :=
  let moduleLessons := m.lessons
  let completedLessons := (moduleLessons.filter (fun l =>
      progress.any (fun p => p.lesson_id == l.id && p.completed))).length
  let quizSubmissions := (moduleLessons.filter (fun l =>
      submissions.any (fun s => s.lesson_id == l.id))).length
  let approvedQuizzes := (moduleLessons.filter (fun l =>
      submissions.any (fun s => s.lesson_id == l.id &&
        s.status == "approved"))).length
  let completionPercentage : ℤ :=
    if 0 < moduleLessons.length then jsPct completedLessons moduleLessons.length
    else 0
  { module_id := m.id, module_title := m.title,
    total_lessons := moduleLessons.length,
    completed_lessons := completedLessons,
    completion_percentage := completionPercentage,
    quiz_submissions := quizSubmissions, approved_quizzes := approvedQuizzes }

/-- The `moduleProgress` array of `getStudentProgress(studentId)` (part_000
lines 273-317), given the fetched active modules (with joined lessons) and the
student's progress and submission rows. -/
def getStudentProgress_moduleProgress (modules : List Module)
    (progress : List ProgressRow) (submissions : List SubmissionRow) :
    List TeacherModuleProgress :=
  modules.map (fun m => getStudentProgress_module m progress submissions)

/-- One element of the array `getStudentsByModule` returns (part_000
lines 417-453); the per-lesson display list is omitted. -/
structure StudentModuleSummary where
  student_id : ℕ
  total_lessons : ℕ
  completed_lessons : ℕ
  completion_percentage : ℤ
  submitted_quizzes : ℕ
  approved_quizzes : ℕ
  deriving DecidableEq, Repr

/-- The body of the `students.map` of `getStudentsByModule` (part_000
lines 417-453): `progress` and `submissions` are the rows fetched with
`.in('lesson_id', lessons.map(l => l.id))`. -/
def getStudentsByModule_entry (lessons : List Lesson)
    (progress : List ProgressRow) (submissions : List SubmissionRow)
    (student : User) : StudentModuleSummary :=
  let studentProgress := progress.filter (fun p => p.student_id == student.id)
  let studentSubmissions :=
    submissions.filter (fun s => s.student_id == student.id)
  let completedLessons := (studentProgress.filter (fun p => p.completed)).length
  let submittedQuizzes := studentSubmissions.length
  let approvedQuizzes :=
    (studentSubmissions.filter (fun s => s.status == "approved")).length
  let completionPercentage : ℤ :=
    if 0 < lessons.length then jsPct completedLessons lessons.length else 0
  { student_id := student.id, total_lessons := lessons.length,
    completed_lessons := completedLessons,
    completion_percentage := completionPercentage,
    submitted_quizzes := submittedQuizzes,
    approved_quizzes := approvedQuizzes }

/-- Source `getStudentsByModule(moduleId)` (part_000 lines 365-459). -/
def getStudentsByModule (lessons : List Lesson) (students : List User)
    (progress : List ProgressRow) (submissions : List SubmissionRow) :
    List StudentModuleSummary :=
  students.map (getStudentsByModule_entry lessons progress submissions)

/-- The spec's completed-lessons count, stated in the spec's own terms for
comparison with the implementations: the number of the module's lessons that
have a progress row with `completed = true`. -/
def specCompletedLessons (lessons : List Lesson)
    (progress : List ProgressRow) : ℕ :=
  (lessons.filter (fun l =>
    progress.any (fun p => p.lesson_id == l.id && p.completed))).length

/-- The claim's completion percentage as written, in exact rational
arithmetic: `round(100 * completed / total)` when the module has lessons, `0`
otherwise.  The program computes in doubles, so this formula is refuted at
`completed = 23, total = 40` (58 here, 57 in the program). -/
def specCompletionPercentage (lessons : List Lesson)
    (progress : List ProgressRow) : ℤ :=
  if 0 < lessons.length then
    round ((100 * (specCompletedLessons lessons progress : ℚ)) /
      (lessons.length : ℚ))
  else 0

/-- The amended claim's completion percentage: `Math.round` of the IEEE-754
double evaluation of `(completed / total) * 100` applied to the spec's
completed-lessons count when the module has lessons, `0` otherwise. -/
def specJsCompletionPercentage (lessons : List Lesson)
    (progress : List ProgressRow) : ℤ :=
  if 0 < lessons.length then
    jsPct (specCompletedLessons lessons progress) lessons.length
  else 0

end MathTuro

namespace MathTuro

-- ============================================
-- Theorems (cache and session monitor)
-- ============================================

theorem cacheMapGet_set (c : CacheMap α) (key : String) (e : CacheEntry α) :
    cacheMapGet (cacheMapSet c key e) key = some e := by
  simp [cacheMapGet, cacheMapSet, List.find?]

/-- C7: after `setCache(key, v, ttl)` at time `t0` with caching enabled,
`getCached(key)` at a time `now1 ≤ t0 + ttl` returns `v` and leaves the cache
unchanged; at a time `now2 > t0 + ttl` it returns `null` and deletes the entry.
When `CONFIG.CACHE_ENABLED` is false, `setCache` stores nothing and `getCached`
always returns `null`. -/
theorem getCached_after_setCache {α : Type} (cfg cfgOff : Config)
    (hOn : cfg.CACHE_ENABLED = true) (hOff : cfgOff.CACHE_ENABLED = false)
    (t0 now1 now2 : ℕ) (c : CacheMap α) (key : String) (v : α) (ttl : ℕ)
    (h1 : now1 ≤ t0 + ttl) (h2 : t0 + ttl < now2) :
    getCached cfg now1 (setCache cfg t0 c key v ttl) key =
      (some v, setCache cfg t0 c key v ttl) ∧
    getCached cfg now2 (setCache cfg t0 c key v ttl) key =
      (none, cacheMapDelete (setCache cfg t0 c key v ttl) key) ∧
    setCache cfgOff t0 c key v ttl = c ∧
    (getCached cfgOff now1 c key).1 = none := by
  refine ⟨?_, ?_, ?_, ?_⟩
  · simp [getCached, setCache, hOn, cacheMapGet_set, Nat.not_lt.mpr h1]
  · simp [getCached, setCache, hOn, cacheMapGet_set, h2]
  · simp [setCache, hOff]
  · simp [getCached, hOff]

/-- Witness for C7 at a concrete cache, key and times. -/
theorem getCached_after_setCache_wit :
    ((⟨true⟩ : Config).CACHE_ENABLED = true ∧ (⟨false⟩ : Config).CACHE_ENABLED = false ∧
      (10 : ℕ) ≤ 3 + 7 ∧ 3 + 7 < 11) ∧
    (getCached ⟨true⟩ 10 (setCache ⟨true⟩ 3 ([] : CacheMap ℕ) "mods" 42 7) "mods" =
        (some 42, setCache ⟨true⟩ 3 ([] : CacheMap ℕ) "mods" 42 7) ∧
      getCached ⟨true⟩ 11 (setCache ⟨true⟩ 3 ([] : CacheMap ℕ) "mods" 42 7) "mods" =
        (none, cacheMapDelete (setCache ⟨true⟩ 3 ([] : CacheMap ℕ) "mods" 42 7) "mods") ∧
      setCache ⟨false⟩ 3 ([] : CacheMap ℕ) "mods" 42 7 = [] ∧
      (getCached ⟨false⟩ 10 ([] : CacheMap ℕ) "mods").1 = none) :=
  ⟨⟨rfl, rfl, by decide, by decide⟩,
    getCached_after_setCache ⟨true⟩ ⟨false⟩ rfl rfl 3 10 11 [] "mods" 42 7
      (by decide) (by decide)⟩

theorem timerReachable_inv (s : TimerState) (h : TimerReachable s) :
    (s.handle = none ∧ s.active = []) ∨ (∃ j, s.handle = some j ∧ s.active = [j]) := by
  induction h with
  | init => exact Or.inl ⟨rfl, rfl⟩
  | start t fid _ ih =>
      rcases ih with ⟨h1, h2⟩ | ⟨j, h1, h2⟩
      · cases t with
        | mk handle active =>
          simp only at h1 h2
          subst h1; subst h2
          exact Or.inr ⟨fid, rfl, rfl⟩
      · cases t with
        | mk handle active =>
          simp only at h1 h2
          subst h1; subst h2
          exact Or.inr ⟨j, rfl, rfl⟩
  | stop t _ ih =>
      rcases ih with ⟨h1, h2⟩ | ⟨j, h1, h2⟩
      · cases t with
        | mk handle active =>
          simp only at h1 h2
          subst h1; subst h2
          exact Or.inl ⟨rfl, rfl⟩
      · cases t with
        | mk handle active =>
          simp only at h1 h2
          subst h1; subst h2
          refine Or.inl ⟨rfl, ?_⟩
          simp [stopSessionMonitor]

/-- C8: in every state reachable by start/stop calls there is at most one active
session-check interval; calling `startSessionMonitor` while a monitor is running
leaves the timer state unchanged, and `stopSessionMonitor` clears the interval
(no session-check interval remains active) and resets the handle to `null`. -/
theorem sessionMonitor_single_interval (s : TimerState) (h : TimerReachable s)
    (freshId : ℕ) :
    s.active.length ≤ 1 ∧
    (s.handle.isSome = true → startSessionMonitor s freshId = s) ∧
    (stopSessionMonitor s).handle = none ∧ (stopSessionMonitor s).active = [] := by
  rcases timerReachable_inv s h with ⟨h1, h2⟩ | ⟨j, h1, h2⟩
  · refine ⟨by simp [h2], ?_, ?_, ?_⟩
    · intro hs; rw [h1] at hs; simp at hs
    · simp [stopSessionMonitor, h1]
    · simp [stopSessionMonitor, h1, h2]
  · refine ⟨by simp [h2], ?_, ?_, ?_⟩
    · intro _; simp [startSessionMonitor, h1]
    · simp [stopSessionMonitor, h1]
    · simp [stopSessionMonitor, h1, h2]

-- ============================================
-- Payload lemmas for the quiz-submission writes
-- ============================================

theorem submitQuizScore_payload (user : Option User) (lessonId timestamp : ℕ)
    (score totalItems : ℤ) (file : Option JsFile) (storage : StorageOutcome)
    (insertError : Option String) (pl : QuizInsertPayload)
    (h : (submitQuizScore user lessonId timestamp score totalItems file storage
        insertError).2 = some pl) :
    pl.status = "pending" ∧ pl.score = score ∧ pl.total_items = totalItems ∧
    0 ≤ score ∧ score ≤ totalItems := by
  rcases user with _ | u
  · simp [submitQuizScore] at h
  · rcases file with _ | f
    · rcases insertError with _ | e
      · simp only [submitQuizScore] at h
        split_ifs at h with hr hneg hgt
        cases Option.some.inj h
        exact ⟨rfl, rfl, rfl, le_of_not_lt (fun hlt => hneg (Or.inl hlt)),
          le_of_not_lt hgt⟩
      · simp only [submitQuizScore] at h
        split_ifs at h with hr hneg hgt
        cases Option.some.inj h
        exact ⟨rfl, rfl, rfl, le_of_not_lt (fun hlt => hneg (Or.inl hlt)),
          le_of_not_lt hgt⟩
    · rcases insertError with _ | e
      · simp only [submitQuizScore] at h
        split_ifs at h with hr hneg hgt hs
        cases Option.some.inj h
        exact ⟨rfl, rfl, rfl, le_of_not_lt (fun hlt => hneg (Or.inl hlt)),
          le_of_not_lt hgt⟩
      · simp only [submitQuizScore] at h
        split_ifs at h with hr hneg hgt hs
        cases Option.some.inj h
        exact ⟨rfl, rfl, rfl, le_of_not_lt (fun hlt => hneg (Or.inl hlt)),
          le_of_not_lt hgt⟩

theorem updateQuizSubmission_payload (user : Option User) (score totalItems : ℤ)
    (file : Option JsFile) (fetchError : Option String)
    (fetchedLessonId timestamp : ℕ) (storage : StorageOutcome)
    (updateError : Option String) (pl : QuizUpdatePayload)
    (h : (updateQuizSubmission user score totalItems file fetchError
        fetchedLessonId timestamp storage updateError).2 = some pl) :
    pl.status = "pending" ∧ pl.score = score ∧ pl.total_items = totalItems ∧
    0 ≤ score ∧ score ≤ totalItems := by
  rcases user with _ | u
  · simp [updateQuizSubmission] at h
  · rcases file with _ | f
    · rcases updateError with _ | e
      · simp only [updateQuizSubmission] at h
        split_ifs at h with hr hneg hgt
        cases Option.some.inj h
        exact ⟨rfl, rfl, rfl, le_of_not_lt (fun hlt => hneg (Or.inl hlt)),
          le_of_not_lt hgt⟩
      · simp only [updateQuizSubmission] at h
        split_ifs at h with hr hneg hgt
        cases Option.some.inj h
        exact ⟨rfl, rfl, rfl, le_of_not_lt (fun hlt => hneg (Or.inl hlt)),
          le_of_not_lt hgt⟩
    · rcases fetchError with _ | e
      · rcases updateError with _ | e2
        · simp only [updateQuizSubmission] at h
          split_ifs at h with hr hneg hgt hs
          cases Option.some.inj h
          exact ⟨rfl, rfl, rfl, le_of_not_lt (fun hlt => hneg (Or.inl hlt)),
            le_of_not_lt hgt⟩
        · simp only [updateQuizSubmission] at h
          split_ifs at h with hr hneg hgt hs
          cases Option.some.inj h
          exact ⟨rfl, rfl, rfl, le_of_not_lt (fun hlt => hneg (Or.inl hlt)),
            le_of_not_lt hgt⟩
      · simp [updateQuizSubmission] at h

theorem requestQuizResubmission_payload (user : Option User)
    (updateError : Option String) (pl : ResubmitPayload)
    (h : (requestQuizResubmission user updateError).2 = some pl) :
    pl.status = "pending" := by
  rcases user with _ | u
  · simp [requestQuizResubmission] at h
  · rcases updateError with _ | e
    · simp only [requestQuizResubmission] at h
      split_ifs at h with hr
      cases Option.some.inj h; rfl
    · simp only [requestQuizResubmission] at h
      split_ifs at h with hr
      cases Option.some.inj h; rfl

theorem approveQuizSubmission_payload (user : Option User)
    (comment : Option String) (now : ℕ) (updateError : Option String)
    (pl : ReviewPayload)
    (h : (approveQuizSubmission user comment now updateError).2 = some pl) :
    pl.status = "approved" := by
  rcases user with _ | u
  · simp [approveQuizSubmission] at h
  · rcases updateError with _ | e
    · simp only [approveQuizSubmission] at h
      split_ifs at h with hr
      cases Option.some.inj h; rfl
    · simp only [approveQuizSubmission] at h
      split_ifs at h with hr
      cases Option.some.inj h; rfl

theorem rejectQuizSubmission_payload (user : Option User)
    (comment : Option String) (now : ℕ) (updateError : Option String)
    (pl : ReviewPayload)
    (h : (rejectQuizSubmission user comment now updateError).2 = some pl) :
    pl.status = "rejected" := by
  rcases user with _ | u
  · simp [rejectQuizSubmission] at h
  · rcases comment with _ | c
    · simp [rejectQuizSubmission] at h
    · rcases updateError with _ | e
      · simp only [rejectQuizSubmission] at h
        split_ifs at h with hr htrim
        cases Option.some.inj h; rfl
      · simp only [rejectQuizSubmission] at h
        split_ifs at h with hr htrim
        cases Option.some.inj h; rfl

/-- C2: for parsed integer inputs failing one of the client checks
(`score > totalItems`, `score < 0`, `totalItems <= 0`), `submitQuizScore` and
`updateQuizSubmission` return `false` without issuing any `quiz_submissions`
insert or update (the accompanying alert is presentation-layer), and every
insert/update payload either function does issue satisfies
`0 <= score <= total_items`. -/
theorem quizScore_validation (u : User) (hrole : u.role = "student")
    (lessonId timestamp fetchedLessonId : ℕ) (score totalItems sc2 ti2 : ℤ)
    (hbad : score > totalItems ∨ score < 0 ∨ totalItems ≤ 0)
    (file file2 : Option JsFile) (storage : StorageOutcome)
    (fetchError insertError updateError : Option String)
    (pl : QuizInsertPayload) (pl2 : QuizUpdatePayload)
    (h1 : (submitQuizScore (some u) lessonId timestamp sc2 ti2 file2 storage
        insertError).2 = some pl)
    (h2 : (updateQuizSubmission (some u) sc2 ti2 file2 fetchError fetchedLessonId
        timestamp storage updateError).2 = some pl2) :
    submitQuizScore (some u) lessonId timestamp score totalItems file storage
        insertError = (false, none) ∧
    updateQuizSubmission (some u) score totalItems file fetchError fetchedLessonId
        timestamp storage updateError = (false, none) ∧
    (0 ≤ pl.score ∧ pl.score ≤ pl.total_items) ∧
    (0 ≤ pl2.score ∧ pl2.score ≤ pl2.total_items) := by
  have hrej : (score < 0 ∨ totalItems ≤ 0) ∨
      (¬(score < 0 ∨ totalItems ≤ 0) ∧ score > totalItems) := by
    by_cases hneg : score < 0 ∨ totalItems ≤ 0
    · exact Or.inl hneg
    · rcases hbad with hgt | hneg'
      · exact Or.inr ⟨hneg, hgt⟩
      · exact absurd hneg' hneg
  obtain ⟨hpS, hpSc, hpT, hp0, hple⟩ :=
    submitQuizScore_payload _ _ _ _ _ _ _ _ _ h1
  obtain ⟨hqS, hqSc, hqT, hq0, hqle⟩ :=
    updateQuizSubmission_payload _ _ _ _ _ _ _ _ _ _ h2
  refine ⟨?_, ?_, ?_, ?_⟩
  · rcases hrej with hneg | ⟨hneg, hgt⟩
    · simp [submitQuizScore, hrole, hneg]
    · simp [submitQuizScore, hrole, hneg, hgt]
  · rcases hrej with hneg | ⟨hneg, hgt⟩
    · simp [updateQuizSubmission, hrole, hneg]
    · simp [updateQuizSubmission, hrole, hneg, hgt]
  · rw [hpSc, hpT]; exact ⟨hp0, hple⟩
  · rw [hqSc, hqT]; exact ⟨hq0, hqle⟩

/-- Witness for C2: the over-maximum input `(7, 5)` is rejected by both
operations while the valid input `(4, 5)` produces in-bounds payloads. -/
theorem quizScore_validation_wit :
    ((⟨3, "student"⟩ : User).role = "student" ∧ (7 : ℤ) > 5 ∧
      (submitQuizScore (some ⟨3, "student"⟩) 1 0 4 5 none ⟨none, some "u"⟩
        none).2 = some ⟨3, 1, 4, 5, none, "pending"⟩ ∧
      (updateQuizSubmission (some ⟨3, "student"⟩) 4 5 none none 1 0
        ⟨none, some "u"⟩ none).2 = some ⟨4, 5, "pending", none, none⟩) ∧
    (submitQuizScore (some ⟨3, "student"⟩) 1 0 7 5 none ⟨none, some "u"⟩ none =
        (false, none) ∧
      updateQuizSubmission (some ⟨3, "student"⟩) 7 5 none none 1 0
        ⟨none, some "u"⟩ none = (false, none) ∧
      (0 ≤ (⟨3, 1, 4, 5, none, "pending"⟩ : QuizInsertPayload).score ∧
        (⟨3, 1, 4, 5, none, "pending"⟩ : QuizInsertPayload).score ≤
          (⟨3, 1, 4, 5, none, "pending"⟩ : QuizInsertPayload).total_items) ∧
      (0 ≤ (⟨4, 5, "pending", none, none⟩ : QuizUpdatePayload).score ∧
        (⟨4, 5, "pending", none, none⟩ : QuizUpdatePayload).score ≤
          (⟨4, 5, "pending", none, none⟩ : QuizUpdatePayload).total_items)) :=
  ⟨⟨rfl, by decide, by decide, by decide⟩,
    quizScore_validation ⟨3, "student"⟩ rfl 1 0 1 7 5 4 5 (Or.inl (by decide))
      none none ⟨none, some "u"⟩ none none none _ _ (by decide) (by decide)⟩

/-- C3: every `quiz_submissions` status value the client writes is `pending`,
`approved` or `rejected`: the payloads of `submitQuizScore`,
`updateQuizSubmission` and `requestQuizResubmission` carry status `pending`,
`approveQuizSubmission` carries `approved`, `rejectQuizSubmission` carries
`rejected`; these five are the only client operations writing a
quiz-submission status. -/
theorem quizStatus_enum (user : Option User)
    (lessonId timestamp fetchedLessonId now : ℕ) (score totalItems : ℤ)
    (file : Option JsFile) (storage : StorageOutcome)
    (fetchError insertError updateError : Option String)
    (comment : Option String) :
    ((submitQuizScore user lessonId timestamp score totalItems file storage
        insertError).2.map QuizInsertPayload.status = none ∨
      (submitQuizScore user lessonId timestamp score totalItems file storage
        insertError).2.map QuizInsertPayload.status = some "pending") ∧
    ((updateQuizSubmission user score totalItems file fetchError fetchedLessonId
        timestamp storage updateError).2.map QuizUpdatePayload.status = none ∨
      (updateQuizSubmission user score totalItems file fetchError fetchedLessonId
        timestamp storage updateError).2.map QuizUpdatePayload.status =
        some "pending") ∧
    ((requestQuizResubmission user updateError).2.map ResubmitPayload.status =
        none ∨
      (requestQuizResubmission user updateError).2.map ResubmitPayload.status =
        some "pending") ∧
    ((approveQuizSubmission user comment now updateError).2.map
        ReviewPayload.status = none ∨
      (approveQuizSubmission user comment now updateError).2.map
        ReviewPayload.status = some "approved") ∧
    ((rejectQuizSubmission user comment now updateError).2.map
        ReviewPayload.status = none ∨
      (rejectQuizSubmission user comment now updateError).2.map
        ReviewPayload.status = some "rejected") := by
  refine ⟨?_, ?_, ?_, ?_, ?_⟩
  · rcases hp : (submitQuizScore user lessonId timestamp score totalItems file
        storage insertError).2 with _ | pl
    · exact Or.inl rfl
    · refine Or.inr ?_
      show some pl.status = some "pending"
      rw [(submitQuizScore_payload _ _ _ _ _ _ _ _ _ hp).1]
  · rcases hp : (updateQuizSubmission user score totalItems file fetchError
        fetchedLessonId timestamp storage updateError).2 with _ | pl
    · exact Or.inl rfl
    · refine Or.inr ?_
      show some pl.status = some "pending"
      rw [(updateQuizSubmission_payload _ _ _ _ _ _ _ _ _ _ hp).1]
  · rcases hp : (requestQuizResubmission user updateError).2 with _ | pl
    · exact Or.inl rfl
    · refine Or.inr ?_
      show some pl.status = some "pending"
      rw [requestQuizResubmission_payload _ _ _ hp]
  · rcases hp : (approveQuizSubmission user comment now updateError).2 with _ | pl
    · exact Or.inl rfl
    · refine Or.inr ?_
      show some pl.status = some "approved"
      rw [approveQuizSubmission_payload _ _ _ _ _ hp]
  · rcases hp : (rejectQuizSubmission user comment now updateError).2 with _ | pl
    · exact Or.inl rfl
    · refine Or.inr ?_
      show some pl.status = some "rejected"
      rw [rejectQuizSubmission_payload _ _ _ _ _ hp]

/-- C4: each of the list-returning reads returns `[]` on a backend error and
exactly the fetched rows on success; each is a total function, so no exception
propagates to the caller. -/
theorem listReads_error_fallback (s t a : User) (hs : s.role = "student")
    (ht : t.role = "teacher" ∨ t.role = "admin") (ha : a.role = "admin")
    (statusFilter roleFilter : Option String) (msg : String)
    (subRows pendRows : List SubmissionRow) (userRows : List User) :
    getQuizSubmissions (some s) statusFilter (.error msg) = [] ∧
    getQuizSubmissions (some s) statusFilter (.ok subRows) = subRows ∧
    getPendingQuizSubmissions (some t) (.error msg) = [] ∧
    getPendingQuizSubmissions (some t) (.ok pendRows) = pendRows ∧
    getUsers (some a) roleFilter (.error msg) = [] ∧
    getUsers (some a) roleFilter (.ok userRows) = userRows := by
  refine ⟨?_, ?_, ?_, ?_, ?_, ?_⟩
  · simp [getQuizSubmissions, hs]
  · simp [getQuizSubmissions, hs]
  · rcases ht with h | h <;> simp [getPendingQuizSubmissions, h]
  · rcases ht with h | h <;> simp [getPendingQuizSubmissions, h]
  · simp [getUsers, ha]
  · simp [getUsers, ha]

/-- Witness for C4 at concrete users and rows. -/
theorem listReads_error_fallback_wit :
    ((⟨1, "student"⟩ : User).role = "student" ∧
      ((⟨2, "teacher"⟩ : User).role = "teacher" ∨
        (⟨2, "teacher"⟩ : User).role = "admin") ∧
      (⟨3, "admin"⟩ : User).role = "admin") ∧
    (getQuizSubmissions (some ⟨1, "student"⟩) none (.error "down") = [] ∧
      getQuizSubmissions (some ⟨1, "student"⟩) none
        (.ok [⟨1, 9, 4, 5, "pending"⟩]) = [⟨1, 9, 4, 5, "pending"⟩] ∧
      getPendingQuizSubmissions (some ⟨2, "teacher"⟩) (.error "down") = [] ∧
      getPendingQuizSubmissions (some ⟨2, "teacher"⟩)
        (.ok [⟨1, 9, 4, 5, "pending"⟩]) = [⟨1, 9, 4, 5, "pending"⟩] ∧
      getUsers (some ⟨3, "admin"⟩) none (.error "down") = [] ∧
      getUsers (some ⟨3, "admin"⟩) none (.ok [⟨1, "student"⟩]) = [⟨1, "student"⟩]) :=
  ⟨⟨rfl, Or.inl rfl, rfl⟩,
    listReads_error_fallback ⟨1, "student"⟩ ⟨2, "teacher"⟩ ⟨3, "admin"⟩ rfl
      (Or.inl rfl) rfl none none "down" [⟨1, 9, 4, 5, "pending"⟩]
      [⟨1, 9, 4, 5, "pending"⟩] [⟨1, "student"⟩]⟩

/-- C5 counterexample: when the `student_notes` upsert throws, `saveStudentNote`
writes the note to localStorage — an alternative storage path — and reports
success, so the failed database write of a student note IS recovered rather
than stopped and reported. -/
theorem saveStudentNote_fallback_cex :
    (saveStudentNote (some ⟨7, "student"⟩) "circle notes" none true).1 = true ∧
    NoteEffect.localStore "note_7_general" "circle notes" ∈
      (saveStudentNote (some ⟨7, "student"⟩) "circle notes" none true).2 := by
  constructor
  · rfl
  · decide

/-- C5 amended: no operation retries or backs off, and a failed remote call
makes the operation stop and report failure — except `saveStudentNote`, which
recovers from a thrown `student_notes` upsert by writing the note to
localStorage under `note_<studentId>_<lessonId|general>` and still returns
`true`; when the upsert does not throw, no localStorage write happens. -/
theorem saveStudentNote_fallback (u t : User) (hu : u.role = "student")
    (ht : t.role = "teacher" ∨ t.role = "admin") (content msg : String)
    (lessonId : Option ℕ) (comment : Option String) (now : ℕ) :
    saveStudentNote (some u) content lessonId true =
      (true, [NoteEffect.dbUpsert u.id lessonId content,
              NoteEffect.localStore (noteLocalKey u.id lessonId) content]) ∧
    saveStudentNote (some u) content lessonId false =
      (true, [NoteEffect.dbUpsert u.id lessonId content]) ∧
    (approveQuizSubmission (some t) comment now (some msg)).1 = false := by
  refine ⟨?_, ?_, ?_⟩
  · simp [saveStudentNote, hu]
  · simp [saveStudentNote, hu]
  · rcases ht with h | h <;> simp [approveQuizSubmission, h]

/-- Witness for the amended C5 at a concrete student and teacher. -/
theorem saveStudentNote_fallback_wit :
    ((⟨7, "student"⟩ : User).role = "student" ∧
      ((⟨2, "teacher"⟩ : User).role = "teacher" ∨
        (⟨2, "teacher"⟩ : User).role = "admin")) ∧
    (saveStudentNote (some ⟨7, "student"⟩) "circle notes" (some 4) true =
        (true, [NoteEffect.dbUpsert 7 (some 4) "circle notes",
                NoteEffect.localStore (noteLocalKey 7 (some 4)) "circle notes"]) ∧
      saveStudentNote (some ⟨7, "student"⟩) "circle notes" (some 4) false =
        (true, [NoteEffect.dbUpsert 7 (some 4) "circle notes"]) ∧
      (approveQuizSubmission (some ⟨2, "teacher"⟩) none 0 (some "down")).1 = false) :=
  ⟨⟨rfl, Or.inl rfl⟩,
    saveStudentNote_fallback ⟨7, "student"⟩ ⟨2, "teacher"⟩ rfl (Or.inl rfl)
      "circle notes" "down" (some 4) none 0⟩

/-- C6: a file whose MIME type is not an allowed image type, or whose size
exceeds 5 * 1024 * 1024 bytes, makes `uploadQuizScreenshot` return
`{success: false, error}` without reaching the storage upload; a valid file
whose upload succeeds yields `{success: true, url}` with `url` the public URL
of the stored object. -/
theorem uploadQuizScreenshot_validation (lessonId studentId timestamp : ℕ)
    (f g : JsFile) (storage : StorageOutcome) (url : String)
    (hbad : f.type ∉ allowedImageTypes ∨ maxScreenshotSize < f.size)
    (hgType : g.type ∈ allowedImageTypes) (hgSize : g.size ≤ maxScreenshotSize) :
    ((uploadQuizScreenshot lessonId studentId timestamp (some f) storage).result.success
        = false ∧
      (uploadQuizScreenshot lessonId studentId timestamp (some f)
        storage).result.error.isSome = true ∧
      (uploadQuizScreenshot lessonId studentId timestamp (some f)
        storage).uploadAttempted = false) ∧
    ((uploadQuizScreenshot lessonId studentId timestamp (some g)
        ⟨none, some url⟩).result.success = true ∧
      (uploadQuizScreenshot lessonId studentId timestamp (some g)
        ⟨none, some url⟩).result.url = some url) := by
  constructor
  · by_cases hT : f.type ∈ allowedImageTypes
    · rcases hbad with hbad | hbad
      · exact absurd hT hbad
      · refine ⟨?_, ?_, ?_⟩ <;> simp [uploadQuizScreenshot, hT, hbad]
    · refine ⟨?_, ?_, ?_⟩ <;> simp [uploadQuizScreenshot, hT]
  · constructor <;> simp [uploadQuizScreenshot, hgType, Nat.not_lt.mpr hgSize]

/-- Witness for C6: a 6-MiB PNG is rejected before any upload, a small PNG is
stored and its public URL returned. -/
theorem uploadQuizScreenshot_validation_wit :
    (((⟨"image/png", 6 * 1024 * 1024⟩ : JsFile).type ∉ allowedImageTypes ∨
        maxScreenshotSize < (⟨"image/png", 6 * 1024 * 1024⟩ : JsFile).size) ∧
      (⟨"image/png", 2048⟩ : JsFile).type ∈ allowedImageTypes ∧
      (⟨"image/png", 2048⟩ : JsFile).size ≤ maxScreenshotSize) ∧
    (((uploadQuizScreenshot 1 2 3 (some ⟨"image/png", 6 * 1024 * 1024⟩)
          ⟨none, some "https://cdn/x.png"⟩).result.success = false ∧
        (uploadQuizScreenshot 1 2 3 (some ⟨"image/png", 6 * 1024 * 1024⟩)
          ⟨none, some "https://cdn/x.png"⟩).result.error.isSome = true ∧
        (uploadQuizScreenshot 1 2 3 (some ⟨"image/png", 6 * 1024 * 1024⟩)
          ⟨none, some "https://cdn/x.png"⟩).uploadAttempted = false) ∧
      ((uploadQuizScreenshot 1 2 3 (some ⟨"image/png", 2048⟩)
          ⟨none, some "https://cdn/x.png"⟩).result.success = true ∧
        (uploadQuizScreenshot 1 2 3 (some ⟨"image/png", 2048⟩)
          ⟨none, some "https://cdn/x.png"⟩).result.url = some "https://cdn/x.png")) :=
  ⟨⟨Or.inr (by decide), by decide, by decide⟩,
    uploadQuizScreenshot_validation 1 2 3 ⟨"image/png", 6 * 1024 * 1024⟩
      ⟨"image/png", 2048⟩ ⟨none, some "https://cdn/x.png"⟩ "https://cdn/x.png"
      (Or.inr (by decide)) (by decide) (by decide)⟩

/-- C9: `rejectQuizSubmission` returns `false` and issues no update when the
comment is null/undefined or whitespace-only; for a non-empty comment and a
teacher or admin caller it sets `teacher_comment` to the trimmed comment,
`status` to `rejected`, and records `reviewed_at` and `reviewed_by`. -/
theorem rejectQuizSubmission_comment (u : User)
    (hrole : u.role = "teacher" ∨ u.role = "admin") (c w : String)
    (hc : jsTrim c ≠ "") (hw : jsTrim w = "") (now : ℕ)
    (updateError : Option String) :
    rejectQuizSubmission (some u) none now updateError = (false, none) ∧
    rejectQuizSubmission (some u) (some w) now updateError = (false, none) ∧
    rejectQuizSubmission (some u) (some c) now none =
      (true, some ⟨"rejected", some (jsTrim c), now, u.id⟩) := by
  refine ⟨?_, ?_, ?_⟩
  · rcases hrole with h | h <;> simp [rejectQuizSubmission, h]
  · rcases hrole with h | h <;> simp [rejectQuizSubmission, h, hw]
  · rcases hrole with h | h <;> simp [rejectQuizSubmission, h, hc]

/-- Witness for C9 at concrete comments (whitespace-only and non-empty). -/
theorem rejectQuizSubmission_comment_wit :
    (((⟨2, "teacher"⟩ : User).role = "teacher" ∨
        (⟨2, "teacher"⟩ : User).role = "admin") ∧
      jsTrim "  try again  " ≠ "" ∧ jsTrim "   " = "") ∧
    (rejectQuizSubmission (some ⟨2, "teacher"⟩) none 5 none = (false, none) ∧
      rejectQuizSubmission (some ⟨2, "teacher"⟩) (some "   ") 5 none =
        (false, none) ∧
      rejectQuizSubmission (some ⟨2, "teacher"⟩) (some "  try again  ") 5 none =
        (true, some ⟨"rejected", some (jsTrim "  try again  "), 5, 2⟩)) :=
  ⟨⟨Or.inl rfl, by decide, by decide⟩,
    rejectQuizSubmission_comment ⟨2, "teacher"⟩ (Or.inl rfl) "  try again  "
      "   " (by decide) (by decide) 5 none⟩

/-- C10: an admin calling `deleteUser` with their own id gets `false` and no
delete is issued to the users table or the auth service; for a different
target, with no errors, the users-table delete is issued first and the
auth-service delete second; when the users-table delete fails the auth
service is never reached. -/
theorem deleteUser_self_protect (u : User) (ha : u.role = "admin")
    (targetId : ℕ) (hne : u.id ≠ targetId) (dbError authError : Option String)
    (msg : String) :
    deleteUser (some u) u.id dbError authError = (false, []) ∧
    deleteUser (some u) targetId none none =
      (true, [AdminDeleteEffect.dbDelete targetId,
              AdminDeleteEffect.authDelete targetId]) ∧
    (deleteUser (some u) targetId (some msg) authError).2 =
      [AdminDeleteEffect.dbDelete targetId] := by
  refine ⟨?_, ?_, ?_⟩
  · simp [deleteUser, ha]
  · simp [deleteUser, ha, hne]
  · simp [deleteUser, ha, hne]

/-- Witness for C10 at a concrete admin and target. -/
theorem deleteUser_self_protect_wit :
    ((⟨3, "admin"⟩ : User).role = "admin" ∧ (⟨3, "admin"⟩ : User).id ≠ 8) ∧
    (deleteUser (some ⟨3, "admin"⟩) 3 none none = (false, []) ∧
      deleteUser (some ⟨3, "admin"⟩) 8 none none =
        (true, [AdminDeleteEffect.dbDelete 8, AdminDeleteEffect.authDelete 8]) ∧
      (deleteUser (some ⟨3, "admin"⟩) 8 (some "down") none).2 =
        [AdminDeleteEffect.dbDelete 8]) :=
  ⟨⟨rfl, by decide⟩,
    deleteUser_self_protect ⟨3, "admin"⟩ rfl 8 (by decide) none none "down"⟩

-- ============================================
-- Counting lemmas for the progress aggregation
-- ============================================

theorem length_filter_map (l : List α) (f : α → β) (p : β → Bool) :
    ((l.map f).filter p).length = (l.filter (fun x => p (f x))).length := by
  induction l with
  | nil => rfl
  | cons x xs ih => by_cases h : p (f x) <;> simp [h, ih]

/-- Under the DB uniqueness of a student/lesson progress pair (the fetched rows
carry pairwise distinct `lesson_id`s), the `find`-based completion flag of
`getStudentProgressByModule` agrees with the `some`-based test of
`getStudentProgress`. -/
theorem findRow_completed_eq_any (progress : List ProgressRow) (lid : ℕ)
    (h : (progress.map ProgressRow.lesson_id).Nodup) :
    (findProgressRow progress lid).elim false ProgressRow.completed =
      progress.any (fun p => p.lesson_id == lid && p.completed) := by
  induction progress with
  | nil => rfl
  | cons p ps ih =>
    rw [List.map_cons, List.nodup_cons] at h
    by_cases hp : p.lesson_id = lid
    · have hnone : ps.any (fun q => q.lesson_id == lid && q.completed) = false := by
        rw [List.any_eq_false]
        intro q hq
        have hne : q.lesson_id ≠ lid := by
          intro he
          exact h.1 (by rw [hp, ← he]; exact List.mem_map_of_mem _ hq)
        simp [hne]
      simp [findProgressRow, List.find?, hp, hnone]
    · have hbeq : (p.lesson_id == lid) = false := by simp [hp]
      have htail := ih h.2
      simp only [findProgressRow] at htail ⊢
      simp [List.find?, hbeq, htail]

theorem any_completed_eq_filter_any (l : List ProgressRow) (lid : ℕ) :
    l.any (fun p => p.lesson_id == lid && p.completed) =
      (l.filter (fun p => p.completed)).any (fun p => p.lesson_id == lid) := by
  induction l with
  | nil => rfl
  | cons p ps ih => by_cases h : p.completed <;> simp [h, ih]

theorem any_beq_eq_mem_map (l : List ProgressRow) (i : ℕ) :
    l.any (fun p => p.lesson_id == i) =
      decide (i ∈ l.map ProgressRow.lesson_id) := by
  induction l with
  | nil => rfl
  | cons p ps ih =>
    have hx : (p.lesson_id == i) = decide (i = p.lesson_id) := by
      by_cases h : p.lesson_id = i
      · simp [h]
      · have h2 : ¬(i = p.lesson_id) := fun he => h he.symm
        simp [h, h2]
    simp [hx, ih]

/-- Counting a no-duplicate list against a no-duplicate list of members:
filtering `L` down to the elements of `S ⊆ L` keeps exactly `S.length`
elements. -/
theorem length_filter_mem {L S : List ℕ} (hL : L.Nodup) (hS : S.Nodup)
    (hsub : ∀ x ∈ S, x ∈ L) :
    (L.filter (fun x => decide (x ∈ S))).length = S.length := by
  have hf : (L.filter (fun x => decide (x ∈ S))).Nodup := hL.filter _
  have hset : (L.filter (fun x => decide (x ∈ S))).toFinset = S.toFinset := by
    ext x
    simp only [List.mem_toFinset, List.mem_filter, decide_eq_true_eq]
    exact ⟨fun hx => hx.2, fun hx => ⟨hsub x hx, hx⟩⟩
  calc (L.filter (fun x => decide (x ∈ S))).length
      = (L.filter (fun x => decide (x ∈ S))).toFinset.card :=
        (List.toFinset_card_of_nodup hf).symm
    _ = S.toFinset.card := by rw [hset]
    _ = S.length := List.toFinset_card_of_nodup hS

/-- The completed-row count of `getStudentsByModule` equals the spec's
completed-lessons count for that student, given the lesson ids are distinct
(primary key), every fetched progress row belongs to a module lesson (the
`.in('lesson_id', ...)` filter) and the student's rows have distinct lesson
ids (DB uniqueness of the student/lesson pair). -/
theorem filter_completed_length_eq_spec (lessons : List Lesson)
    (progress : List ProgressRow) (sid : ℕ)
    (hL : (lessons.map Lesson.id).Nodup)
    (hsub : ∀ p ∈ progress, p.lesson_id ∈ lessons.map Lesson.id)
    (hstu : ((progress.filter (fun p => p.student_id == sid)).map
      ProgressRow.lesson_id).Nodup) :
    ((progress.filter (fun p => p.student_id == sid)).filter
        (fun p => p.completed)).length =
      specCompletedLessons lessons
        (progress.filter (fun p => p.student_id == sid)) := by
  set sp := progress.filter (fun p => p.student_id == sid) with hsp
  set cr := sp.filter (fun p => p.completed) with hcr
  have hcrS : (cr.map ProgressRow.lesson_id).Nodup := by
    rw [hcr]
    exact List.Nodup.sublist
      ((List.filter_sublist sp).map ProgressRow.lesson_id) hstu
  have hcrSub : ∀ x ∈ cr.map ProgressRow.lesson_id, x ∈ lessons.map Lesson.id := by
    intro x hx
    obtain ⟨p, hp, rfl⟩ := List.mem_map.mp hx
    rw [hcr] at hp
    have hp1 : p ∈ sp := List.mem_of_mem_filter hp
    rw [hsp] at hp1
    exact hsub p (List.mem_of_mem_filter hp1)
  have step1 : specCompletedLessons lessons sp =
      (lessons.filter (fun l =>
        decide (l.id ∈ cr.map ProgressRow.lesson_id))).length := by
    unfold specCompletedLessons
    congr 1
    apply List.filter_congr
    intro l _
    rw [any_completed_eq_filter_any, ← hcr, any_beq_eq_mem_map]
  have step2 : (lessons.filter (fun l =>
      decide (l.id ∈ cr.map ProgressRow.lesson_id))).length =
      ((lessons.map Lesson.id).filter (fun x =>
        decide (x ∈ cr.map ProgressRow.lesson_id))).length :=
    (length_filter_map lessons Lesson.id
      (fun x => decide (x ∈ cr.map ProgressRow.lesson_id))).symm
  rw [step1, step2, length_filter_mem hL hcrS hcrSub, List.length_map]

/-- Source `getStudentProgressByModule` matches the spec's count and percentage when
the fetched progress rows have pairwise distinct lesson ids (the DB uniqueness
of the student/lesson progress pair, restricted to one student). -/
theorem getStudentProgressByModule_spec (moduleId : ℕ) (lessons : List Lesson)
    (progress : List ProgressRow)
    (h : (progress.map ProgressRow.lesson_id).Nodup) :
    (getStudentProgressByModule moduleId lessons progress).completed_lessons =
      specCompletedLessons lessons progress ∧
    (getStudentProgressByModule moduleId lessons progress).completion_percentage
      = specJsCompletionPercentage lessons progress := by
  have hcount : ((lessons.map (fun l =>
      ({ lesson_id := l.id,
         completed := (findProgressRow progress l.id).elim false
           ProgressRow.completed } : LessonProgressEntry))).filter
      (fun e => e.completed)).length = specCompletedLessons lessons progress := by
    rw [length_filter_map]
    unfold specCompletedLessons
    congr 1
    apply List.filter_congr
    intro l _
    exact findRow_completed_eq_any progress l.id h
  refine ⟨hcount, ?_⟩
  simp only [getStudentProgressByModule, List.length_map]
  rw [hcount]
  rfl

/-- Source `getStudentProgress`'s per-module entry matches the spec's count and
percentage (its count is literally the spec's `some`-based count). -/
theorem getStudentProgress_module_spec (m : Module) (progress : List ProgressRow)
    (submissions : List SubmissionRow) :
    (getStudentProgress_module m progress submissions).completed_lessons =
      specCompletedLessons m.lessons progress ∧
    (getStudentProgress_module m progress submissions).completion_percentage =
      specJsCompletionPercentage m.lessons progress := by
  exact ⟨rfl, rfl⟩

/-- Source `getStudentsByModule`'s per-student entry matches the spec's count and
percentage, under the lesson primary key, the `.in('lesson_id', ...)` fetch
filter and the DB uniqueness of the student/lesson progress pair. -/
theorem getStudentsByModule_entry_spec (lessons : List Lesson)
    (progress : List ProgressRow) (submissions : List SubmissionRow) (st : User)
    (hL : (lessons.map Lesson.id).Nodup)
    (hsub : ∀ p ∈ progress, p.lesson_id ∈ lessons.map Lesson.id)
    (hstu : ((progress.filter (fun p => p.student_id == st.id)).map
      ProgressRow.lesson_id).Nodup) :
    (getStudentsByModule_entry lessons progress submissions st).completed_lessons
      = specCompletedLessons lessons
        (progress.filter (fun p => p.student_id == st.id)) ∧
    (getStudentsByModule_entry lessons progress submissions
        st).completion_percentage
      = specJsCompletionPercentage lessons
        (progress.filter (fun p => p.student_id == st.id)) := by
  have hcount := filter_completed_length_eq_spec lessons progress st.id hL hsub hstu
  refine ⟨hcount, ?_⟩
  simp only [getStudentsByModule_entry]
  rw [hcount]
  rfl

/-- C1 (amended): all three progress aggregations return
`completion_percentage` equal to `Math.round` of the IEEE-754 double
evaluation of `(completed_lessons / total_lessons) * 100` for a module with
lessons and `0` for a module without, where `completed_lessons` counts the
module's lessons having a progress row with `completed = true`.  (The claim's
exact `round(100 * completed / total)` fails at double-rounding ties, see the
counterexample.)  The hypotheses are the database schema invariants: lesson
ids are a primary key, the fetched progress rows belong to the module's
lessons, and `lesson_progress` is unique per student/lesson pair. -/
theorem progress_aggregation (moduleId : ℕ) (myLessons : List Lesson)
    (myProgress : List ProgressRow)
    (hMy : (myProgress.map ProgressRow.lesson_id).Nodup)
    (modules : List Module) (tProgress : List ProgressRow)
    (tSubs : List SubmissionRow) (m : Module) (hm : m ∈ modules)
    (lessons2 : List Lesson) (students : List User)
    (progress2 : List ProgressRow) (subs2 : List SubmissionRow)
    (st : User) (hst : st ∈ students)
    (hL2 : (lessons2.map Lesson.id).Nodup)
    (hsub2 : ∀ p ∈ progress2, p.lesson_id ∈ lessons2.map Lesson.id)
    (hstu2 : ((progress2.filter (fun p => p.student_id == st.id)).map
      ProgressRow.lesson_id).Nodup) :
    ((getStudentProgressByModule moduleId myLessons myProgress).completed_lessons
        = specCompletedLessons myLessons myProgress ∧
      (getStudentProgressByModule moduleId myLessons
          myProgress).completion_percentage
        = specJsCompletionPercentage myLessons myProgress) ∧
    (getStudentProgress_module m tProgress tSubs ∈
        getStudentProgress_moduleProgress modules tProgress tSubs ∧
      (getStudentProgress_module m tProgress tSubs).completed_lessons =
        specCompletedLessons m.lessons tProgress ∧
      (getStudentProgress_module m tProgress tSubs).completion_percentage =
        specJsCompletionPercentage m.lessons tProgress) ∧
    (getStudentsByModule_entry lessons2 progress2 subs2 st ∈
        getStudentsByModule lessons2 students progress2 subs2 ∧
      (getStudentsByModule_entry lessons2 progress2 subs2 st).completed_lessons
        = specCompletedLessons lessons2
          (progress2.filter (fun p => p.student_id == st.id)) ∧
      (getStudentsByModule_entry lessons2 progress2 subs2
          st).completion_percentage
        = specJsCompletionPercentage lessons2
          (progress2.filter (fun p => p.student_id == st.id))) := by
  obtain ⟨h1c, h1p⟩ := getStudentProgressByModule_spec moduleId myLessons
    myProgress hMy
  obtain ⟨h2c, h2p⟩ := getStudentProgress_module_spec m tProgress tSubs
  obtain ⟨h3c, h3p⟩ := getStudentsByModule_entry_spec lessons2 progress2 subs2
    st hL2 hsub2 hstu2
  exact ⟨⟨h1c, h1p⟩,
    ⟨List.mem_map_of_mem _ hm, h2c, h2p⟩,
    ⟨List.mem_map_of_mem _ hst, h3c, h3p⟩⟩

/-- Witness for C1: one module of two lessons, one of them completed by
student 5; all three aggregations report 1 completed lesson and 50%. -/
theorem progress_aggregation_wit :
    (([(⟨5, 1, true⟩ : ProgressRow)].map ProgressRow.lesson_id).Nodup ∧
      (⟨10, "M", [⟨1, "L1"⟩, ⟨2, "L2"⟩]⟩ : Module) ∈
        [(⟨10, "M", [⟨1, "L1"⟩, ⟨2, "L2"⟩]⟩ : Module)] ∧
      (⟨5, "student"⟩ : User) ∈ [(⟨5, "student"⟩ : User)] ∧
      (([(⟨1, "L1"⟩ : Lesson), ⟨2, "L2"⟩].map Lesson.id)).Nodup ∧
      (∀ p ∈ [(⟨5, 1, true⟩ : ProgressRow)],
        p.lesson_id ∈ [(⟨1, "L1"⟩ : Lesson), ⟨2, "L2"⟩].map Lesson.id) ∧
      ((([(⟨5, 1, true⟩ : ProgressRow)].filter
          (fun p => p.student_id == (⟨5, "student"⟩ : User).id)).map
        ProgressRow.lesson_id)).Nodup) ∧
    (((getStudentProgressByModule 10 [⟨1, "L1"⟩, ⟨2, "L2"⟩]
          [⟨5, 1, true⟩]).completed_lessons
        = specCompletedLessons [⟨1, "L1"⟩, ⟨2, "L2"⟩] [⟨5, 1, true⟩] ∧
      (getStudentProgressByModule 10 [⟨1, "L1"⟩, ⟨2, "L2"⟩]
          [⟨5, 1, true⟩]).completion_percentage
        = specJsCompletionPercentage [⟨1, "L1"⟩, ⟨2, "L2"⟩] [⟨5, 1, true⟩]) ∧
    (getStudentProgress_module ⟨10, "M", [⟨1, "L1"⟩, ⟨2, "L2"⟩]⟩ [⟨5, 1, true⟩]
          [] ∈
        getStudentProgress_moduleProgress [⟨10, "M", [⟨1, "L1"⟩, ⟨2, "L2"⟩]⟩]
          [⟨5, 1, true⟩] [] ∧
      (getStudentProgress_module ⟨10, "M", [⟨1, "L1"⟩, ⟨2, "L2"⟩]⟩
          [⟨5, 1, true⟩] []).completed_lessons =
        specCompletedLessons (⟨10, "M", [⟨1, "L1"⟩, ⟨2, "L2"⟩]⟩ : Module).lessons
          [⟨5, 1, true⟩] ∧
      (getStudentProgress_module ⟨10, "M", [⟨1, "L1"⟩, ⟨2, "L2"⟩]⟩
          [⟨5, 1, true⟩] []).completion_percentage =
        specJsCompletionPercentage
          (⟨10, "M", [⟨1, "L1"⟩, ⟨2, "L2"⟩]⟩ : Module).lessons
          [⟨5, 1, true⟩]) ∧
    (getStudentsByModule_entry [⟨1, "L1"⟩, ⟨2, "L2"⟩] [⟨5, 1, true⟩] []
          ⟨5, "student"⟩ ∈
        getStudentsByModule [⟨1, "L1"⟩, ⟨2, "L2"⟩] [⟨5, "student"⟩]
          [⟨5, 1, true⟩] [] ∧
      (getStudentsByModule_entry [⟨1, "L1"⟩, ⟨2, "L2"⟩] [⟨5, 1, true⟩] []
          ⟨5, "student"⟩).completed_lessons
        = specCompletedLessons [⟨1, "L1"⟩, ⟨2, "L2"⟩]
          ([(⟨5, 1, true⟩ : ProgressRow)].filter
            (fun p => p.student_id == (⟨5, "student"⟩ : User).id)) ∧
      (getStudentsByModule_entry [⟨1, "L1"⟩, ⟨2, "L2"⟩] [⟨5, 1, true⟩] []
          ⟨5, "student"⟩).completion_percentage
        = specJsCompletionPercentage [⟨1, "L1"⟩, ⟨2, "L2"⟩]
          ([(⟨5, 1, true⟩ : ProgressRow)].filter
            (fun p => p.student_id == (⟨5, "student"⟩ : User).id)))) :=
  ⟨⟨by decide, by decide, by decide, by decide, by decide, by decide⟩,
    progress_aggregation 10 [⟨1, "L1"⟩, ⟨2, "L2"⟩] [⟨5, 1, true⟩] (by decide)
      [⟨10, "M", [⟨1, "L1"⟩, ⟨2, "L2"⟩]⟩] [⟨5, 1, true⟩] []
      ⟨10, "M", [⟨1, "L1"⟩, ⟨2, "L2"⟩]⟩ (by decide)
      [⟨1, "L1"⟩, ⟨2, "L2"⟩] [⟨5, "student"⟩] [⟨5, 1, true⟩] []
      ⟨5, "student"⟩ (by decide) (by decide) (by decide) (by decide)⟩

/-- C1 counterexample: for a module of 40 lessons of which 23 are completed,
the program evaluates `(23 / 40) * 100` in doubles to 57.49999999999999 and
`Math.round` returns 57, while the claim's exact
`round(100 * completed_lessons / total_lessons)` is `round(57.5) = 58` — so
the claim as stated fails on the code. -/
theorem progress_aggregation_cex :
    (getStudentProgressByModule 10
        ((List.range 40).map (fun i => (⟨i + 1, "L"⟩ : Lesson)))
        ((List.range 23).map
          (fun i => (⟨5, i + 1, true⟩ : ProgressRow)))).completion_percentage
      = 57 ∧
    specCompletionPercentage
        ((List.range 40).map (fun i => (⟨i + 1, "L"⟩ : Lesson)))
        ((List.range 23).map (fun i => (⟨5, i + 1, true⟩ : ProgressRow)))
      = 58 ∧
    (getStudentProgressByModule 10
        ((List.range 40).map (fun i => (⟨i + 1, "L"⟩ : Lesson)))
        ((List.range 23).map
          (fun i => (⟨5, i + 1, true⟩ : ProgressRow)))).completion_percentage
      ≠ specCompletionPercentage
        ((List.range 40).map (fun i => (⟨i + 1, "L"⟩ : Lesson)))
        ((List.range 23).map (fun i => (⟨5, i + 1, true⟩ : ProgressRow))) := by
  have h1 : (getStudentProgressByModule 10
      ((List.range 40).map (fun i => (⟨i + 1, "L"⟩ : Lesson)))
      ((List.range 23).map
        (fun i => (⟨5, i + 1, true⟩ : ProgressRow)))).completion_percentage
      = 57 := by decide
  have hc : specCompletedLessons
      ((List.range 40).map (fun i => (⟨i + 1, "L"⟩ : Lesson)))
      ((List.range 23).map (fun i => (⟨5, i + 1, true⟩ : ProgressRow)))
      = 23 := by decide
  have h2 : specCompletionPercentage
      ((List.range 40).map (fun i => (⟨i + 1, "L"⟩ : Lesson)))
      ((List.range 23).map (fun i => (⟨5, i + 1, true⟩ : ProgressRow)))
      = 58 := by
    simp only [specCompletionPercentage, hc, List.length_map, List.length_range]
    norm_num [round_eq]
  exact ⟨h1, h2, by rw [h1, h2]; decide⟩

/-- Witness for C8 at the reachable state obtained by one start call. -/
theorem sessionMonitor_single_interval_wit :
    TimerReachable (startSessionMonitor initialTimerState 1) ∧
    ((startSessionMonitor initialTimerState 1).active.length ≤ 1 ∧
      ((startSessionMonitor initialTimerState 1).handle.isSome = true →
        startSessionMonitor (startSessionMonitor initialTimerState 1) 2 =
          startSessionMonitor initialTimerState 1) ∧
      (stopSessionMonitor (startSessionMonitor initialTimerState 1)).handle = none ∧
      (stopSessionMonitor (startSessionMonitor initialTimerState 1)).active = []) :=
  ⟨TimerReachable.start _ 1 TimerReachable.init,
    sessionMonitor_single_interval _ (TimerReachable.start _ 1 TimerReachable.init) 2⟩

end MathTuro
